import Mathlib

/-!
Shallow embedding of `src/brightness_and_contrast.py`.

The program loads a color image, applies the linear brightness/contrast
transform of `adjust_brightness_contrast` to each of the three channels,
and displays the result.  The numeric core of the transform is the call
`cv2.convertScaleAbs(img, alpha=alpha, beta=beta)` (line 70), whose
per-sample semantics, per the OpenCV documentation, is
`dst = saturate_cast<uchar>(|alpha * src + beta|)`:
scale, take the absolute value, round to the nearest integer with ties to
even (`cvRound`), and saturate to the unsigned 8-bit range [0, 255].

Python floats are modelled as rationals; every value arising in the
claims is exactly representable.
-/

attribute [local semireducible] Rat.add Rat.mul Rat.sub Rat.inv Rat.ofScientific

/-- `cvRound`: round to the nearest integer, ties to even
(the rounding used by OpenCV's `saturate_cast` conversion). -/
def cvRound (q : ℚ) : ℤ :=
  if 2 * (q - (⌊q⌋ : ℚ)) < 1 then ⌊q⌋
  else if 1 < 2 * (q - (⌊q⌋ : ℚ)) then ⌊q⌋ + 1
  else if ⌊q⌋ % 2 = 0 then ⌊q⌋ else ⌊q⌋ + 1

/-- `saturate_cast<uchar>` applied to an integer: clamp into [0, 255]. -/
def saturate_uchar (v : ℤ) : ℤ :=
  if v < 0 then 0 else if 255 < v then 255 else v

/-- Per-sample semantics of `cv2.convertScaleAbs` (line 70 of the source):
`saturate_cast<uchar>(|alpha * x + beta|)`. -/
def convertScaleAbsSample (alpha beta : ℚ) (x : ℤ) : ℤ :=
  saturate_uchar (cvRound |alpha * (x : ℚ) + beta|)

/-- A 2-D channel array: a grid of integer samples. -/
abbrev Channel : Type := List (List ℤ)

/-- `cv2.convertScaleAbs` on a whole 2-D channel: elementwise. -/
def convertScaleAbsChannel (alpha beta : ℚ) (img : Channel) : Channel :=
  img.map (List.map (convertScaleAbsSample alpha beta))

/-- A Python runtime value, as far as the parameter validation of
`adjust_brightness_contrast` distinguishes them: `int`, `float`,
`bool` (a subclass of `int` in Python) and `str` (a non-number). -/
inductive PyVal : Type
  | int (n : ℤ)
  | float (q : ℚ)
  | bool (b : Bool)
  | str (s : String)
deriving DecidableEq

/-- Python's `isinstance(v, (int, float))` as used on lines 60 and 63:
`bool` is a subclass of `int`, so booleans pass the check. -/
def PyVal.isNumber : PyVal → Bool
  | .int _ => true
  | .float _ => true
  | .bool _ => true
  | .str _ => false

/-- The numeric value of a numeric `PyVal` (Python treats `True` as 1 and
`False` as 0 in arithmetic). -/
def PyVal.toRat : PyVal → ℚ
  | .int n => (n : ℚ)
  | .float q => q
  | .bool b => if b then 1 else 0
  | .str _ => 0

/-- The errors `adjust_brightness_contrast` raises:
`TypeError` (spec: InvalidParameterType) when alpha or beta is not a
number, `ValueError` (spec: InvalidParameterValue) when alpha < 0. -/
inductive TransformError : Type
  | invalidParameterType
  | invalidParameterValue
deriving DecidableEq

deriving instance DecidableEq for Except

/-- `adjust_brightness_contrast` (lines 41-71): validate that `alpha` is a
number, then that `beta` is a number, then that `alpha ≥ 0`, and finally
apply `cv2.convertScaleAbs` elementwise. -/
def adjust_brightness_contrast (img : Channel) (alpha beta : PyVal) :
    Except TransformError Channel :=
  if ¬ alpha.isNumber then .error .invalidParameterType
  else if ¬ beta.isNumber then .error .invalidParameterType
  else if alpha.toRat < 0 then .error .invalidParameterValue
  else .ok (convertScaleAbsChannel alpha.toRat beta.toRat img)

/-- A color image: a grid of pixels, each holding 3 integer channel
samples. -/
abbrev Image : Type := List (List (ℤ × ℤ × ℤ))

/-- Number of pixel rows (`img.shape[0]`). -/
def Image.height (im : Image) : ℕ := im.length

/-- Number of pixel columns (`img.shape[1]`, taken from the first row). -/
def Image.width (im : Image) : ℕ := (im.headD []).length

/-- Select sample `c` of a pixel (`pixel[c]`). -/
def pixelChannel (c : ℕ) (p : ℤ × ℤ × ℤ) : ℤ :=
  if c = 0 then p.1 else if c = 1 then p.2.1 else p.2.2

/-- Channel plane `im[:, :, c]`. -/
def Image.channelPlane (im : Image) (c : ℕ) : Channel :=
  im.map (List.map (pixelChannel c))

/-- Zip three sample rows into one pixel row (assignment of the three
channel planes into one output row of `np.zeros_like(img_color)`). -/
def zipRow3 (a b c : List ℤ) : List (ℤ × ℤ × ℤ) :=
  List.zipWith (fun x p => (x, p)) a (List.zipWith Prod.mk b c)

/-- Assemble three channel planes into one image
(`adjusted_color[:, :, i] = ...` for `i = 0, 1, 2`, lines 117-121). -/
def assembleImage (r g b : Channel) : Image :=
  List.zipWith (fun ra p => zipRow3 ra p.1 p.2) r (List.zipWith Prod.mk g b)

/-- The per-channel transform loop of `main` (lines 117-121): apply
`adjust_brightness_contrast` to each of the three channel planes in turn
(an exception from any call propagates) and assemble the results into an
image of the same shape. -/
def mainPipeline (im : Image) (alpha beta : PyVal) :
    Except TransformError Image := do
  let c0 ← adjust_brightness_contrast (im.channelPlane 0) alpha beta
  let c1 ← adjust_brightness_contrast (im.channelPlane 1) alpha beta
  let c2 ← adjust_brightness_contrast (im.channelPlane 2) alpha beta
  pure (assembleImage c0 c1 c2)

/-- What `load_image` observes about its path argument:
whether the path exists, whether it is a regular file, and what
`cv2.imread` returns for it (`none` models a failed decode / `None`). -/
structure FS : Type where
  pathExists : Bool
  isFile : Bool
  decoded : Option Image
deriving DecidableEq

/-- The failure modes of `load_image` (each one prints a message and calls
`sys.exit(1)`). -/
inductive LoadError : Type
  | notFound
  | isADirectory
  | decodeError
deriving DecidableEq

/-- `cv2.cvtColor(img, cv2.COLOR_BGR2RGB)` (line 36): reverse the channel
order of every pixel. -/
def bgr2rgb (im : Image) : Image :=
  im.map (List.map (fun p => (p.2.2, p.2.1, p.1)))

/-- Outcome of `load_image`: whether `cv2.imread` was invoked on the path,
and the result (a loaded image, or the error on which the process exits). -/
structure LoadOutcome : Type where
  decodeAttempted : Bool
  result : Except LoadError Image
deriving DecidableEq

/-- `load_image` (lines 8-38).  Note the order in the source:
`cv2.imread` is called first (line 21), before any check on the path;
then the checks run in the order: path existence (line 23), regular file
(line 27), decode result (line 31); on success the image is converted
from BGR to RGB (line 36). -/
def load_image (fs : FS) : LoadOutcome :=
  { decodeAttempted := true
    result :=
      if fs.pathExists = false then .error .notFound
      else if fs.isFile = false then .error .isADirectory
      else
        match fs.decoded with
        | none => .error .decodeError
        | some im => .ok (bgr2rgb im) }

/-- Exit status of the process after `load_image` (each failure branch
calls `sys.exit(1)`; success continues with status 0). -/
def loadExitCode (fs : FS) : ℕ :=
  match (load_image fs).result with
  | .error _ => 1
  | .ok _ => 0

example : adjust_brightness_contrast [[10]] (.float (Rat.divInt 3 2)) (.float (-50))
    = .ok [[35]] := by decide

example : adjust_brightness_contrast [[100]] (.float (Rat.divInt 3 2)) (.float 30)
    = .ok [[180]] := by decide

example : adjust_brightness_contrast [[200]] (.float (Rat.divInt 3 2)) (.float 30)
    = .ok [[255]] := by decide

example : mainPipeline [[(1, 2, 3)]] (.int 1) (.int 0) = .ok [[(1, 2, 3)]] := by decide

example : load_image ⟨false, false, none⟩ =
    ⟨true, .error .notFound⟩ := by decide

example : load_image ⟨true, false, some [[(1, 2, 3)]]⟩ =
    ⟨true, .error .isADirectory⟩ := by decide

example : load_image ⟨true, true, some [[(1, 2, 3)]]⟩ =
    ⟨true, .ok [[(3, 2, 1)]]⟩ := by decide

/-! ### Helper lemmas -/

theorem cvRound_intCast (n : ℤ) : cvRound (n : ℚ) = n := by
  unfold cvRound
  rw [Int.floor_intCast]
  norm_num

theorem cvRound_mono {a b : ℚ} (h : a ≤ b) : cvRound a ≤ cvRound b := by
  unfold cvRound
  rcases lt_or_eq_of_le (Int.floor_le_floor h) with hf | hf
  · split_ifs <;> omega
  · rw [hf]
    have hab : a - (⌊b⌋ : ℚ) ≤ b - (⌊b⌋ : ℚ) := by linarith
    split_ifs <;> first | omega | linarith

theorem saturate_uchar_mono {v w : ℤ} (h : v ≤ w) :
    saturate_uchar v ≤ saturate_uchar w := by
  unfold saturate_uchar
  split_ifs <;> omega

theorem saturate_uchar_bounds (v : ℤ) :
    0 ≤ saturate_uchar v ∧ saturate_uchar v ≤ 255 := by
  unfold saturate_uchar
  split_ifs <;> omega

theorem convertScaleAbsSample_id {x : ℤ} (h0 : 0 ≤ x) (h255 : x ≤ 255) :
    convertScaleAbsSample 1 0 x = x := by
  unfold convertScaleAbsSample
  have h1 : (1 : ℚ) * (x : ℚ) + 0 = (x : ℚ) := by ring
  rw [h1, abs_of_nonneg (by exact_mod_cast h0), cvRound_intCast]
  unfold saturate_uchar
  split_ifs <;> omega

theorem convertScaleAbsSample_mono {alpha beta : ℚ} {x1 x2 : ℤ}
    (ha : 0 ≤ alpha) (hb : 0 ≤ beta) (h1 : 0 ≤ x1) (h12 : x1 ≤ x2) :
    convertScaleAbsSample alpha beta x1 ≤ convertScaleAbsSample alpha beta x2 := by
  have hc : (x1 : ℚ) ≤ (x2 : ℚ) := by exact_mod_cast h12
  have hx : alpha * (x1 : ℚ) + beta ≤ alpha * (x2 : ℚ) + beta :=
    add_le_add_right (mul_le_mul_of_nonneg_left hc ha) beta
  have h01 : (0 : ℚ) ≤ alpha * (x1 : ℚ) + beta :=
    add_nonneg (mul_nonneg ha (by exact_mod_cast h1)) hb
  unfold convertScaleAbsSample
  rw [abs_of_nonneg h01, abs_of_nonneg (le_trans h01 hx)]
  exact saturate_uchar_mono (cvRound_mono hx)

theorem adjust_ok_of_valid {alpha beta : PyVal} (img : Channel)
    (ha : alpha.isNumber = true) (hb : beta.isNumber = true)
    (hnn : 0 ≤ alpha.toRat) :
    adjust_brightness_contrast img alpha beta
      = .ok (convertScaleAbsChannel alpha.toRat beta.toRat img) := by
  simp [adjust_brightness_contrast, ha, hb, not_lt.mpr hnn]

theorem adjust_ok_elim {alpha beta : PyVal} {img out : Channel}
    (h : adjust_brightness_contrast img alpha beta = .ok out) :
    out = convertScaleAbsChannel alpha.toRat beta.toRat img := by
  unfold adjust_brightness_contrast at h
  split_ifs at h
  simp_all

theorem exceptBind_ok {ε α β : Type} {x : Except ε α} {f : α → Except ε β} {b : β}
    (h : (x >>= f) = .ok b) : ∃ a, x = .ok a ∧ f a = .ok b := by
  cases x with
  | error e => simp [Bind.bind, Except.bind] at h
  | ok a => exact ⟨a, rfl, by simpa [Bind.bind, Except.bind] using h⟩

theorem convertScaleAbsChannel_id (img : Channel)
    (hin : ∀ row ∈ img, ∀ x ∈ row, 0 ≤ x ∧ x ≤ 255) :
    convertScaleAbsChannel 1 0 img = img := by
  unfold convertScaleAbsChannel
  conv_rhs => rw [← List.map_id img]
  refine List.map_congr_left fun row hrow => ?_
  simp only [id]
  conv_rhs => rw [← List.map_id row]
  refine List.map_congr_left fun x hx => ?_
  simp only [id]
  exact convertScaleAbsSample_id (hin row hrow x hx).1 (hin row hrow x hx).2

theorem assembleImage_length (r g b : Channel) :
    (assembleImage r g b).length = min r.length (min g.length b.length) := by
  simp [assembleImage, List.length_zipWith]

theorem convertScaleAbsChannel_length (a b : ℚ) (img : Channel) :
    (convertScaleAbsChannel a b img).length = img.length := by
  simp [convertScaleAbsChannel]

/-! ### Claim theorems -/

/-- C1, counterexample: for input channel value 10 with alpha = 1.5 and
beta = -50 the returned sample is 35, not 0 — the claim that the sample
is 0 fails on this concrete input. -/
theorem c1_negative_value_not_clamped_to_zero :
    adjust_brightness_contrast [[10]] (.float (Rat.divInt 3 2)) (.float (-50))
      = .ok [[35]]
    ∧ adjust_brightness_contrast [[10]] (.float (Rat.divInt 3 2)) (.float (-50))
      ≠ .ok [[0]] := by decide

/-- C1, amended: for input channel value 10 with alpha = 1.5 and
beta = -50 the code computes 1.5*10-50 = -35, takes the absolute value
(35) before rounding and saturating (`cv2.convertScaleAbs` semantics),
and the returned sample is 35. -/
theorem c1_scenario3_abs_value :
    Rat.divInt 3 2 * ((10 : ℤ) : ℚ) + (-50) = Rat.divInt (-35) 1
    ∧ cvRound |Rat.divInt 3 2 * ((10 : ℤ) : ℚ) + (-50)| = 35
    ∧ adjust_brightness_contrast [[10]] (.float (Rat.divInt 3 2)) (.float (-50))
      = .ok [[35]] := by decide

/-- C2, counterexample: with alpha = 1 ≥ 0 and beta = -50 the per-sample
transform is not non-decreasing: the input 0 maps to 50 while the larger
input 50 maps to 0. -/
theorem c2_not_monotone_for_negative_beta :
    adjust_brightness_contrast [[0]] (.int 1) (.int (-50)) = .ok [[50]]
    ∧ adjust_brightness_contrast [[50]] (.int 1) (.int (-50)) = .ok [[0]]
    ∧ ¬ ((50 : ℤ) ≤ 0) := by decide

/-- C2, amended: for every fixed alpha ≥ 0 and beta ≥ 0 the per-sample
transform is non-decreasing in the input sample over [0, 255]. -/
theorem c2_monotone_of_nonneg_beta (alpha beta : ℚ) (x1 x2 : ℤ)
    (ha : 0 ≤ alpha) (hb : 0 ≤ beta)
    (h0 : 0 ≤ x1) (h12 : x1 ≤ x2) (_h255 : x2 ≤ 255) :
    convertScaleAbsSample alpha beta x1 ≤ convertScaleAbsSample alpha beta x2 :=
  convertScaleAbsSample_mono ha hb h0 h12

/-- Witness for C2: instantiation at alpha = 1, beta = 0, x1 = 3, x2 = 7. -/
theorem c2_monotone_witness :
    convertScaleAbsSample 1 0 3 ≤ convertScaleAbsSample 1 0 7 :=
  c2_monotone_of_nonneg_beta 1 0 3 7 (by decide) (by decide) (by decide)
    (by decide) (by decide)

/-- C3: for numeric parameters with alpha ≥ 0 and any input channel with
samples in [0, 255], the transform succeeds and every output sample is an
integer in [0, 255]. -/
theorem c3_output_in_range (alpha beta : PyVal) (img : Channel)
    (ha : alpha.isNumber = true) (hb : beta.isNumber = true)
    (hnn : 0 ≤ alpha.toRat)
    (_hin : ∀ row ∈ img, ∀ x ∈ row, 0 ≤ x ∧ x ≤ 255) :
    ∃ out, adjust_brightness_contrast img alpha beta = .ok out
      ∧ ∀ row ∈ out, ∀ y ∈ row, 0 ≤ y ∧ y ≤ 255 := by
  refine ⟨_, adjust_ok_of_valid img ha hb hnn, ?_⟩
  intro row hrow y hy
  unfold convertScaleAbsChannel at hrow
  obtain ⟨row0, hrow0, rfl⟩ := List.mem_map.mp hrow
  obtain ⟨x, hx, rfl⟩ := List.mem_map.mp hy
  unfold convertScaleAbsSample
  exact saturate_uchar_bounds _

/-- Witness for C3: alpha = 1.5, beta = 30, input channel [[100, 200]]. -/
theorem c3_output_in_range_witness :
    ∃ out, adjust_brightness_contrast [[100, 200]]
        (.float (Rat.divInt 3 2)) (.float 30) = .ok out
      ∧ ∀ row ∈ out, ∀ y ∈ row, 0 ≤ y ∧ y ≤ 255 :=
  c3_output_in_range (.float (Rat.divInt 3 2)) (.float 30) [[100, 200]]
    (by decide) (by decide) (by decide) (by decide)

/-- C4: with alpha = 1 and beta = 0 the transform returns every channel
whose samples lie in [0, 255] unchanged. -/
theorem c4_identity (img : Channel)
    (hin : ∀ row ∈ img, ∀ x ∈ row, 0 ≤ x ∧ x ≤ 255) :
    adjust_brightness_contrast img (.int 1) (.int 0) = .ok img := by
  rw [@adjust_ok_of_valid (.int 1) (.int 0) img (by decide) (by decide)
    (by norm_num [PyVal.toRat])]
  simp only [PyVal.toRat, Int.cast_one, Int.cast_zero]
  rw [convertScaleAbsChannel_id img hin]

/-- Witness for C4: the channel [[0, 127, 255]] is returned unchanged. -/
theorem c4_identity_witness :
    adjust_brightness_contrast [[0, 127, 255]] (.int 1) (.int 0)
      = .ok [[0, 127, 255]] :=
  c4_identity [[0, 127, 255]] (by decide)

/-- C5: for every numeric alpha < 0 and every numeric beta (of any sign)
the transform fails with `ValueError` (InvalidParameterValue) on every
input channel — the failure does not depend on the channel data. -/
theorem c5_negative_alpha_rejected (alpha beta : PyVal) (img : Channel)
    (ha : alpha.isNumber = true) (hb : beta.isNumber = true)
    (hneg : alpha.toRat < 0) :
    adjust_brightness_contrast img alpha beta
      = .error .invalidParameterValue := by
  simp [adjust_brightness_contrast, ha, hb, hneg]

/-- Witness for C5: alpha = -0.1, beta = 0. -/
theorem c5_negative_alpha_witness :
    adjust_brightness_contrast [[7]] (.float (Rat.divInt (-1) 10)) (.int 0)
      = .error .invalidParameterValue :=
  c5_negative_alpha_rejected (.float (Rat.divInt (-1) 10)) (.int 0) [[7]]
    (by decide) (by decide) (by decide)

/-- C6: when alpha is not numeric, or beta is not numeric, the transform
fails with `TypeError` (InvalidParameterType) on every input channel —
the failure does not depend on the channel data. -/
theorem c6_non_numeric_rejected (alpha beta : PyVal) (img : Channel)
    (h : alpha.isNumber = false ∨ beta.isNumber = false) :
    adjust_brightness_contrast img alpha beta
      = .error .invalidParameterType := by
  rcases h with h | h <;> simp [adjust_brightness_contrast, h]

/-- Witness for C6: alpha = "x". -/
theorem c6_non_numeric_witness :
    adjust_brightness_contrast [[1]] (.str "x") (.int 0)
      = .error .invalidParameterType :=
  c6_non_numeric_rejected (.str "x") (.int 0) [[1]] (Or.inl (by decide))

/-- C7, counterexample: loading a nonexistent path does fail with
NotFoundError and exit code 1, but a decode of the path IS attempted:
`cv2.imread` runs on line 21, before the existence check on line 23 —
refuting the claim that no decode is attempted. -/
theorem c7_decode_attempted_counterexample :
    (load_image ⟨false, true, none⟩).result = .error .notFound
    ∧ loadExitCode ⟨false, true, none⟩ = 1
    ∧ ¬ ((load_image ⟨false, true, none⟩).decodeAttempted = false) := by decide

/-- C7, amended: loading a nonexistent path fails with NotFoundError and
the process reports a non-zero exit, but the loader invokes the decoder
(`cv2.imread`, line 21) before the existence check, so a decode of the
path is attempted (its result is ignored on this path). -/
theorem c7_notfound_nonzero_exit (fs : FS) (h : fs.pathExists = false) :
    (load_image fs).result = .error .notFound
    ∧ loadExitCode fs = 1
    ∧ (load_image fs).decodeAttempted = true := by
  refine ⟨by simp [load_image, h], ?_, rfl⟩
  simp [loadExitCode, load_image, h]

/-- Witness for C7: a path that does not exist. -/
theorem c7_notfound_witness :
    (load_image ⟨false, true, none⟩).result = .error .notFound
    ∧ loadExitCode ⟨false, true, none⟩ = 1
    ∧ (load_image ⟨false, true, none⟩).decodeAttempted = true :=
  c7_notfound_nonzero_exit ⟨false, true, none⟩ rfl

/-- C8: the loader checks its failure modes in the order: path does not
exist (NotFoundError), then path is not a regular file (IsADirectoryError,
regardless of the decode result), then decode failure (DecodeError); and
IsADirectoryError is distinct from the other two errors. -/
theorem c8_check_order (fs : FS) :
    (fs.pathExists = false → (load_image fs).result = .error .notFound)
    ∧ (fs.pathExists = true → fs.isFile = false →
        (load_image fs).result = .error .isADirectory)
    ∧ (fs.pathExists = true → fs.isFile = true → fs.decoded = none →
        (load_image fs).result = .error .decodeError)
    ∧ LoadError.isADirectory ≠ LoadError.notFound
    ∧ LoadError.isADirectory ≠ LoadError.decodeError := by
  refine ⟨fun h => by simp [load_image, h],
    fun h1 h2 => by simp [load_image, h1, h2],
    fun h1 h2 h3 => by simp [load_image, h1, h2, h3],
    by decide, by decide⟩

/-- Witness for C8: one instantiation per failure mode; the directory
case uses a directory on which the decoder also failed, and still reports
IsADirectoryError, not DecodeError. -/
theorem c8_check_order_witness :
    (load_image ⟨false, false, none⟩).result = .error .notFound
    ∧ (load_image ⟨true, false, none⟩).result = .error .isADirectory
    ∧ (load_image ⟨true, true, none⟩).result = .error .decodeError :=
  ⟨(c8_check_order ⟨false, false, none⟩).1 rfl,
   (c8_check_order ⟨true, false, none⟩).2.1 rfl rfl,
   (c8_check_order ⟨true, true, none⟩).2.2.1 rfl rfl rfl⟩

/-- C9: whenever the per-channel transform pipeline of `main` succeeds,
the output image has the same height and width as the input image. -/
theorem c9_shape_preserved (im : Image) (alpha beta : PyVal) (out : Image)
    (h : mainPipeline im alpha beta = .ok out) :
    out.height = im.height ∧ out.width = im.width := by
  unfold mainPipeline at h
  obtain ⟨c0, h0, h⟩ := exceptBind_ok h
  obtain ⟨c1, h1, h⟩ := exceptBind_ok h
  obtain ⟨c2, h2, h⟩ := exceptBind_ok h
  have e0 := adjust_ok_elim h0
  have e1 := adjust_ok_elim h1
  have e2 := adjust_ok_elim h2
  have hout : out = assembleImage c0 c1 c2 := by
    simpa [pure, Except.pure] using h.symm
  subst hout e0 e1 e2
  constructor
  · simp [Image.height, assembleImage_length, convertScaleAbsChannel_length,
      Image.channelPlane, List.length_map]
  · cases im with
    | nil =>
        simp [Image.width, Image.channelPlane, convertScaleAbsChannel,
          assembleImage]
    | cons row rest =>
        simp [Image.width, Image.channelPlane, convertScaleAbsChannel,
          assembleImage, zipRow3, List.zipWith, List.length_zipWith,
          List.length_map]

/-- Witness for C9: a 1×1 image transformed with alpha = 2, beta = 10. -/
theorem c9_shape_witness :
    Image.height [[(10, 210, 255)]] = Image.height [[(0, 100, 200)]]
    ∧ Image.width [[(10, 210, 255)]] = Image.width [[(0, 100, 200)]] :=
  c9_shape_preserved [[(0, 100, 200)]] (.int 2) (.int 10) [[(10, 210, 255)]]
    (by decide)

/-- C10: booleans pass the numeric-parameter validation of the transform
(Python's `bool` is a subclass of `int`): with alpha = True and
beta = False the transform does not fail with InvalidParameterType but
computes with alpha = 1 and beta = 0. -/
theorem c10_bool_params_pass (img : Channel) :
    (PyVal.bool true).isNumber = true
    ∧ (PyVal.bool false).isNumber = true
    ∧ adjust_brightness_contrast img (.bool true) (.bool false)
        = .ok (convertScaleAbsChannel 1 0 img) := by
  refine ⟨rfl, rfl, ?_⟩
  rw [@adjust_ok_of_valid (.bool true) (.bool false) img (by decide) (by decide)
    (by norm_num [PyVal.toRat])]
  norm_num [PyVal.toRat]
